import Mathlib

/-!
A verification development for the marketbsbot repository: a shallow
embedding of the price-trend / alert-scheduling core found in `bt6.py`
(with the storage helpers of `db.py`, and the variant rate estimator of
`bot1.py`), together with theorems settling the specified properties.

Modelling conventions:
* Python floats and DECIMAL columns are modelled as `ℚ`; Python's
  `round(x, 4)` is modelled as round-half-to-even on rationals.
* Wall-clock values (`datetime`, unix timestamps) are rationals counting
  seconds; `timedelta(minutes=m)` adds `60 * m` seconds.
* Database rows become Lean structures; a table becomes a `List`.
  Iterating the rows returned by `get_active_alerts()` and updating each
  selected row by primary key is modelled as a `List.map` whose body is
  guarded by the same `status = "active"` test that the SQL filter applies.
* Side effects are reified: each handler body becomes a function from its
  inputs to an outcome value recording which reply/notification was issued
  and which row, if any, was written.
-/

/-- A stored market observation: one row of the `market_data` table
(`resource` is kept by the callers that query the table; the fields the
trend estimator reads are the prices and the unix timestamp in seconds). -/
structure MarketRec where
  buy : ℚ
  sell : ℚ
  quantity : ℤ
  timestamp : ℚ
deriving DecidableEq, Repr

/-- The `price_type` argument of `calculate_speed` / `get_trend`:
the dictionary key `"buy"` or `"sell"`. -/
inductive PriceField where
  | buy
  | sell
deriving DecidableEq, Repr

/-- Dictionary access `record[price_type]`. -/
def MarketRec.price (r : MarketRec) : PriceField → ℚ
  | .buy => r.buy
  | .sell => r.sell

/-- Python's `records[-1]` for a list whose tail from `r` onward is known nonempty. -/
def lastOf (r : MarketRec) (tl : List MarketRec) : MarketRec :=
  (r :: tl).getLast (List.cons_ne_nil _ _)

/-- Python's round-half-to-even of a rational to the nearest integer. -/
def roundHalfEven (q : ℚ) : ℤ :=
  let f := ⌊q⌋
  if q - f < 1/2 then f
  else if (1:ℚ)/2 < q - f then f + 1
  else if f % 2 = 0 then f else f + 1

/-- Python's `round(x, 4)`. -/
def roundQ4 (q : ℚ) : ℚ := (roundHalfEven (q * 10000) : ℚ) / 10000

/-- Embedding of `bt6.calculate_speed`: two-point secant rate per minute over the first
and last record, `None` when fewer than two records or when the elapsed
time is exactly zero. -/
def calculate_speed (records : List MarketRec) (pt : PriceField) : Option ℚ :=
  match records with
  | [] => none
  | [_] => none
  | r1 :: r2 :: tl =>
    let lastR := lastOf r2 tl
    let priceDelta := lastR.price pt - r1.price pt
    let timeDeltaMinutes := (lastR.timestamp - r1.timestamp) / 60
    if timeDeltaMinutes = 0 then none
    else some (roundQ4 (priceDelta / timeDeltaMinutes))

/-- Embedding of `bot1.calculate_speed`: same secant rate, but `None` whenever the
elapsed time is below 0.1 minutes. -/
def calculate_speed_bot1 (records : List MarketRec) (pt : PriceField) : Option ℚ :=
  match records with
  | [] => none
  | [_] => none
  | r1 :: r2 :: tl =>
    let lastR := lastOf r2 tl
    let priceDelta := lastR.price pt - r1.price pt
    let timeDeltaMinutes := (lastR.timestamp - r1.timestamp) / 60
    if timeDeltaMinutes < 1/10 then none
    else some (roundQ4 (priceDelta / timeDeltaMinutes))

/-- Embedding of `bt6.get_trend`: compares first against last record of the window;
returns the string `"stable"` when fewer than two records. -/
def get_trend (records : List MarketRec) (pt : PriceField) : String :=
  match records with
  | [] => "stable"
  | [_] => "stable"
  | r1 :: r2 :: tl =>
    let lastR := lastOf r2 tl
    if r1.price pt < lastR.price pt then "up"
    else if lastR.price pt < r1.price pt then "down"
    else "stable"

/-- A row of the `settings` table, as returned by `db.get_user_settings`. -/
structure Settings where
  has_anchor : Bool
  trade_level : ℤ
  push_interval : ℤ
  push_enabled : Bool
deriving DecidableEq, Repr

/-- The defaults `db.get_user_settings` returns when no row exists. -/
def defaultSettings : Settings :=
  { has_anchor := false, trade_level := 0, push_interval := 30, push_enabled := true }

/-- Embedding of `bt6.get_user_bonus` applied to a settings row: `0.02`
for the anchor plus `0.02` per trade level.  This is the intended
db-backed computation; in bt6 as written the lookup goes through the
shadowed wrapper (see `get_user_settings_bt6`) and never returns a row,
so no call of `get_user_bonus` in bt6 ever produces this value. -/
def get_user_bonus (s : Settings) : ℚ :=
  (if s.has_anchor then 1/50 else 0) + (1/50) * (s.trade_level : ℚ)

/-- Embedding of `bt6.adjust_prices_for_user`: buy gets cheaper, sell gets dearer. -/
def adjust_prices_for_user (s : Settings) (buy sell : ℚ) : ℚ × ℚ :=
  let bonus := get_user_bonus s
  (buy / (1 + bonus), sell * (1 + bonus))

/-- The validation in `bt6.process_trade_level`: an entered integer is
accepted only when it lies in `0..10`. -/
def process_trade_level (entered : ℤ) : Option ℤ :=
  if entered < 0 ∨ 10 < entered then none else some entered

/-- The module-level wrapper `bt6.get_user_settings` (bt6.py lines 72-73):
`def get_user_settings(user_id): return get_user_settings(user_id)`.
The `def` shadows the name imported from `db`, so the call in the body
resolves to the wrapper itself.  The self-call is made explicit with a
fuel parameter: no amount of fuel ever produces a settings row. -/
def get_user_settings_bt6 : Nat → ℤ → Option Settings
  | 0, _ => none
  | n + 1, uid => get_user_settings_bt6 n uid

/-- The alert direction, written by the selection flow as `"down"`
(falling) or `"up"` (rising); these are the only values ever inserted. -/
inductive Direction where
  | down
  | up
deriving DecidableEq, Repr

/-- A row of the `alerts` table (`chat_id` / `message_id`, which only
route the group copy of each notification, are omitted). -/
structure Alert where
  user_id : ℤ
  resource : String
  target_price : ℚ
  direction : Direction
  speed : ℚ
  current_price : ℚ
  alert_time : ℚ
  created_at : ℚ
  status : String
  last_checked : ℚ
deriving DecidableEq, Repr

/-- The reply issued by `bt6.process_target_price` and the row it inserts,
if any.  Only the `created` constructor corresponds to an `insert_alert`
call; every other constructor is a reply with no persistence. -/
inductive CreateOutcome where
  | invalidPrice
  | insufficientData
  | undefinedRate
  | directionPriceMismatch
  | adverseRate
  | created (a : Alert)
deriving DecidableEq, Repr

/-- Embedding of `bt6.process_target_price` under the intended db-backed
settings semantics (the settings row is a parameter): the target-price
handler from the parsed positive-price check down to `insert_alert`.
The trend-contradiction advisory between the mismatch gate and the
adverse-rate gate only sends a warning and changes no control flow, so
it does not alter the outcome.  In bt6 as written the
`get_user_bonus(user_id)` call at this point diverges (bt6.py:391, via
the shadowed lookup); `process_target_price_bt6` models the handler as
written. -/
def process_target_price (st : Settings) (uid : ℤ) (resource : String)
    (direction : Direction) (target_price : ℚ) (records : List MarketRec)
    (now : ℚ) : CreateOutcome :=
  if target_price ≤ 0 then .invalidPrice
  else
    match records with
    | [] => .insufficientData
    | [_] => .insufficientData
    | r1 :: r2 :: tl =>
      match calculate_speed (r1 :: r2 :: tl) .buy with
      | none => .undefinedRate
      | some speed =>
        let bonus := get_user_bonus st
        let adj_speed := speed / (1 + bonus)
        let current_price := (lastOf r2 tl).buy
        let adjusted_buy := current_price / (1 + bonus)
        let price_diff := target_price - adjusted_buy
        if (direction = .down ∧ adjusted_buy ≤ target_price) ∨
           (direction = .up ∧ target_price ≤ adjusted_buy) then
          .directionPriceMismatch
        else if (direction = .down ∧ 0 ≤ adj_speed) ∨
                (direction = .up ∧ adj_speed ≤ 0) then
          .adverseRate
        else
          let time_minutes := |price_diff| / |adj_speed|
          let alert_time := now + 60 * time_minutes
          .created
            { user_id := uid, resource := resource,
              target_price := target_price, direction := direction,
              speed := adj_speed, current_price := adjusted_buy,
              alert_time := alert_time, created_at := now,
              status := "active", last_checked := now }

/-- What the per-alert body of `bt6.update_dynamic_timers` /
`update_dynamic_timers_once` does with one alert: nothing (`continue`
with no write and no message), a terminal status write with its
notification, or an `update_alert` reschedule (whose "timer updated"
message is sent only when the new time moved by more than 5 minutes). -/
inductive ReconcileOutcome where
  | skip
  | trendChanged
  | completed
  | rescheduled (new_alert_time new_speed new_price : ℚ) (notified : Bool)
deriving DecidableEq, Repr

/-- The shared per-alert body of `bt6.update_dynamic_timers` (periodic
sweep) and `bt6.update_dynamic_timers_once` (post-ingest sweep) under
the intended db-backed settings semantics; the two functions are
textually identical here.  `records` is the 15-minute window for the
alert's resource and `latest` the newest stored row.  In bt6 as written
the body's `get_user_bonus` call diverges (bt6.py:831 and 945);
`reconcile_step_bt6` models the body as written. -/
def reconcile_step (st : Settings) (a : Alert) (records : List MarketRec)
    (latest : Option MarketRec) (now : ℚ) : ReconcileOutcome :=
  match records with
  | [] => .skip
  | [_] => .skip
  | r1 :: r2 :: tl =>
    match latest with
    | none => .skip
    | some l =>
      if l.timestamp ≤ a.created_at then .skip
      else
        match calculate_speed (r1 :: r2 :: tl) .buy with
        | none => .skip
        | some speed =>
          let bonus := get_user_bonus st
          let current_price := l.buy / (1 + bonus)
          let adj_speed := speed / (1 + bonus)
          let current_trend := get_trend (r1 :: r2 :: tl) .buy
          if (a.direction = .down ∧ current_trend = "up") ∨
             (a.direction = .up ∧ current_trend = "down") then
            .trendChanged
          else if (a.direction = .down ∧ current_price ≤ a.target_price) ∨
                  (a.direction = .up ∧ a.target_price ≤ current_price) then
            .completed
          else if (a.direction = .down ∧ 0 ≤ adj_speed) ∨
                  (a.direction = .up ∧ adj_speed ≤ 0) then
            .skip
          else
            let time_minutes := |a.target_price - current_price| / |adj_speed|
            let new_alert_time := now + 60 * time_minutes
            .rescheduled new_alert_time adj_speed current_price
              (decide (5 < |new_alert_time - a.alert_time| / 60))

/-- Whether a reconcile outcome sends any message to the user. -/
def reconcile_notifies : ReconcileOutcome → Bool
  | .skip => false
  | .trendChanged => true
  | .completed => true
  | .rescheduled _ _ _ notified => notified

/-- The row as rewritten by the reconcile outcome: `update_alert_status`
for the terminal outcomes, `update_alert` (which also stamps
`last_checked`) for a reschedule, and no write for a skip. -/
def apply_outcome (a : Alert) (o : ReconcileOutcome) (now : ℚ) : Alert :=
  match o with
  | .skip => a
  | .trendChanged => { a with status := "trend_changed" }
  | .completed => { a with status := "completed" }
  | .rescheduled t sp p _ =>
      { a with alert_time := t, speed := sp, current_price := p, last_checked := now }

/-- Embedding of `db.get_active_alerts`: `SELECT * FROM alerts WHERE status = 'active'`. -/
def get_active_alerts (alerts : List Alert) : List Alert :=
  alerts.filter (fun a => a.status == "active")

/-- One table row after a sweep pass: rows the `status = 'active'` filter
excludes are untouched; rows it selects are rewritten by the per-alert
body (keyed updates over the filtered rows equal this guarded map). -/
def sweep_one (st : Settings) (recordsOf : String → List MarketRec)
    (latestOf : String → Option MarketRec) (now : ℚ) (a : Alert) : Alert :=
  if a.status = "active" then
    apply_outcome a (reconcile_step st a (recordsOf a.resource) (latestOf a.resource) now) now
  else a

/-- The whole-table effect of one pass of `bt6.update_dynamic_timers_once`
(also one iteration of the `update_dynamic_timers` loop). -/
def update_dynamic_timers_once (st : Settings) (recordsOf : String → List MarketRec)
    (latestOf : String → Option MarketRec) (now : ℚ) (alerts : List Alert) : List Alert :=
  alerts.map (sweep_one st recordsOf latestOf now)

/-- What the timer task `bt6.schedule_alert` does on wake: return without
any message or write, mark the alert `error` (the raise on missing data
precedes every message), or send the one fire notification and write
`completed` / `expired`. -/
inductive FireOutcome where
  | noop
  | errored
  | fired (target_reached : Bool)
deriving DecidableEq, Repr

/-- The body of `bt6.schedule_alert` after the sleep: re-fetch the alert,
no-op unless it is still `active`, then test attainment against the
latest price adjusted for the user.  The `noop` branch precedes any
settings lookup and is the behaviour as written; the `fired` branch is
the intended semantics of the remainder (in bt6 as written the
`adjust_prices_for_user` call at bt6.py:459 diverges inside the `try`
and the handler lands in `errored`). -/
def schedule_alert (st : Settings) (fetched : Option Alert) (target_price : ℚ)
    (latest : Option MarketRec) : FireOutcome :=
  match fetched with
  | none => .noop
  | some a =>
    if a.status ≠ "active" then .noop
    else
      match latest with
      | none => .errored
      | some l =>
        let current_price := l.buy / (1 + get_user_bonus st)
        .fired (decide ((a.direction = .down ∧ current_price ≤ target_price) ∨
                        (a.direction = .up ∧ target_price ≤ current_price)))

/-- Whether the timer path sends a message (only the fired branch does;
the raise happens before any send). -/
def fire_notifies : FireOutcome → Bool
  | .noop => false
  | .errored => false
  | .fired _ => true

/-- The status, if any, the timer path writes. -/
def fire_status : FireOutcome → Option String
  | .noop => none
  | .errored => some "error"
  | .fired true => some "completed"
  | .fired false => some "expired"

/-- One pass of `bt6.cleanup_expired_alerts`: among the rows of
`get_active_alerts()`, those with `alert_time` before `now` minus one
hour are set to status `'cleanup_expired'`; every other row is untouched. -/
def cleanup_expired_alerts (alerts : List Alert) (now : ℚ) : List Alert :=
  alerts.map (fun a =>
    if a.status = "active" ∧ a.alert_time < now - 3600 then
      { a with status := "cleanup_expired" }
    else a)

/-- Result of running a bt6 handler or sweep body as written: either the
body finishes with its outcome, or it aborts with the `RecursionError`
raised inside the shadowed settings lookup — no reply is sent and no row
is written past that point. -/
inductive RunOutcome (α : Type) where
  | ok (o : α)
  | crashed
deriving DecidableEq, Repr

/-- Embedding of `bt6.process_target_price` as written: identical to
`process_target_price` up to the `get_user_bonus(user_id)` call
(bt6.py:391), which enters the self-recursive shadowed
`get_user_settings` wrapper and never returns, so the handler aborts:
the direction-mismatch gate, the adverse-rate reply and `insert_alert`
never execute. -/
def process_target_price_bt6 (fuel : ℕ) (uid : ℤ) (resource : String)
    (direction : Direction) (target_price : ℚ) (records : List MarketRec)
    (now : ℚ) : RunOutcome CreateOutcome :=
  if target_price ≤ 0 then .ok .invalidPrice
  else
    match records with
    | [] => .ok .insufficientData
    | [_] => .ok .insufficientData
    | r1 :: r2 :: tl =>
      match calculate_speed (r1 :: r2 :: tl) .buy with
      | none => .ok .undefinedRate
      | some _ =>
        match get_user_settings_bt6 fuel uid with
        | none => .crashed
        | some st =>
          .ok (process_target_price st uid resource direction target_price
            (r1 :: r2 :: tl) now)

/-- The per-alert body of the bt6 sweeps as written: the window, latest
and stale-timestamp guards of bt6.py:934-943 run, then the
`get_user_bonus` call at bt6.py:945 (831 in the periodic loop) diverges,
aborting the sweep before the speed, trend, attainment and reschedule
logic; with a returning settings lookup the body would proceed exactly
as `reconcile_step`. -/
def reconcile_step_bt6 (fuel : ℕ) (a : Alert) (records : List MarketRec)
    (latest : Option MarketRec) (now : ℚ) : RunOutcome ReconcileOutcome :=
  match records with
  | [] => .ok .skip
  | [_] => .ok .skip
  | r1 :: r2 :: tl =>
    match latest with
    | none => .ok .skip
    | some l =>
      if l.timestamp ≤ a.created_at then .ok .skip
      else
        match get_user_settings_bt6 fuel a.user_id with
        | none => .crashed
        | some st => .ok (reconcile_step st a (r1 :: r2 :: tl) (some l) now)

/-! ### Concrete scenario data -/

/-- Scenario A/B window: buy 10.0 at t = 0, buy 8.0 ten minutes later. -/
def recsA : List MarketRec := [⟨10, 9, 0, 0⟩, ⟨8, 7, 0, 600⟩]

/-- Two observations three seconds apart (0.05 minutes). -/
def recsThreeSec : List MarketRec := [⟨10, 9, 0, 0⟩, ⟨8, 7, 0, 3⟩]

/-- A concrete Active alert used to exercise the reschedule branch. -/
def alertResched : Alert :=
  { user_id := 1, resource := "wood", target_price := 6, direction := .down,
    speed := -1/5, current_price := 8, alert_time := 600, created_at := 0,
    status := "active", last_checked := 0 }

/-- The 15-minute window and latest row driving that reschedule. -/
def recsResched : List MarketRec := [⟨10, 9, 0, 100⟩, ⟨8, 7, 0, 700⟩]

/-- Scenario A's created alert at `now = 1000`. -/
def alertScenA : Alert :=
  { user_id := 1, resource := "wood", target_price := 7, direction := .down,
    speed := -1/5, current_price := 8, alert_time := 1000 + 300,
    created_at := 1000, status := "active", last_checked := 1000 }

/-- An Active alert created after the newest observation for the C9
witness: the latest price 6.5 already attains the target 7 and the
window trend (`"up"`) contradicts the falling direction, yet nothing
happens. -/
def alertStale : Alert :=
  { user_id := 1, resource := "wood", target_price := 7, direction := .down,
    speed := -1/5, current_price := 8, alert_time := 2000, created_at := 1000,
    status := "active", last_checked := 1000 }

/-- The stale window for the C9 witness (both rows precede `created_at`). -/
def recsStale : List MarketRec := [⟨6, 5, 0, 100⟩, ⟨13/2, 6, 0, 900⟩]

/-- Scenario C alert: Active, Falling, target 7.0, `fire_at` far in the
future. -/
def alertScenC : Alert :=
  { user_id := 1, resource := "wood", target_price := 7, direction := .down,
    speed := -1/5, current_price := 8, alert_time := 100000, created_at := 0,
    status := "active", last_checked := 0 }

/-- Scenario C window: price falls from 7.2 to 6.5 over ten minutes. -/
def recsScenC : List MarketRec := [⟨36/5, 6, 0, 60⟩, ⟨13/2, 6, 0, 660⟩]

/-- A terminal (completed) alert row. -/
def alertDone : Alert :=
  { user_id := 1, resource := "wood", target_price := 7, direction := .down,
    speed := -1/5, current_price := 8, alert_time := 600, created_at := 0,
    status := "completed", last_checked := 0 }

/-- An Active alert whose `alert_time` lies more than one hour in the
past at `now = 10000`. -/
def alertHourOld : Alert :=
  { user_id := 1, resource := "wood", target_price := 7, direction := .down,
    speed := -1/5, current_price := 8, alert_time := 0, created_at := 0,
    status := "active", last_checked := 0 }

/-! ### Theorems -/

/-- Helper: the shadowed `bt6.get_user_settings` wrapper never returns a
row, whatever the recursion depth. -/
theorem get_user_settings_bt6_eq_none (fuel : ℕ) (uid : ℤ) :
    get_user_settings_bt6 fuel uid = none := by
  induction fuel with
  | zero => rfl
  | succ k ih => simpa [get_user_settings_bt6] using ih

/-- Helper: any request that passes the positive-price, window and
defined-rate gates makes the bt6 handler crash at the settings lookup. -/
theorem process_target_price_bt6_crashes (fuel : ℕ) (uid : ℤ) (res : String)
    (dir : Direction) (target : ℚ) (r1 r2 : MarketRec) (tl : List MarketRec)
    (now : ℚ) (s : ℚ)
    (hpos : 0 < target)
    (hs : calculate_speed (r1 :: r2 :: tl) .buy = some s) :
    process_target_price_bt6 fuel uid res dir target (r1 :: r2 :: tl) now =
      .crashed := by
  unfold process_target_price_bt6
  rw [if_neg (not_le.2 hpos)]
  simp only [hs, get_user_settings_bt6_eq_none]

/-- Helper: no run of the bt6 handler ever reaches `insert_alert` — every
path ends in an early-gate reply or in the crash. -/
theorem process_target_price_bt6_no_insert (fuel : ℕ) (uid : ℤ) (res : String)
    (dir : Direction) (target : ℚ) (records : List MarketRec) (now : ℚ)
    (a : Alert) :
    process_target_price_bt6 fuel uid res dir target records now ≠
      .ok (.created a) := by
  unfold process_target_price_bt6
  split
  · simp
  · rcases records with _ | ⟨r1, _ | ⟨r2, tl⟩⟩
    · simp
    · simp
    · rcases h : calculate_speed (r1 :: r2 :: tl) .buy with _ | s
      · simp [h]
      · simp [h, get_user_settings_bt6_eq_none]

/-- Helper: any alert whose guards pass (window of two or more rows,
latest row newer than `created_at`) makes the bt6 sweep body crash at
the settings lookup. -/
theorem reconcile_step_bt6_crashes (fuel : ℕ) (a : Alert) (r1 r2 : MarketRec)
    (tl : List MarketRec) (l : MarketRec) (now : ℚ)
    (hts : a.created_at < l.timestamp) :
    reconcile_step_bt6 fuel a (r1 :: r2 :: tl) (some l) now = .crashed := by
  simp only [reconcile_step_bt6]
  rw [if_neg (not_le.2 hts)]
  simp only [get_user_settings_bt6_eq_none]

/-- Helper: no run of the bt6 sweep body ever reaches `update_alert` —
every path skips or crashes. -/
theorem reconcile_step_bt6_no_update (fuel : ℕ) (a : Alert)
    (records : List MarketRec) (latest : Option MarketRec) (now : ℚ)
    (t sp p : ℚ) (b : Bool) :
    reconcile_step_bt6 fuel a records latest now ≠
      .ok (.rescheduled t sp p b) := by
  rcases records with _ | ⟨r1, _ | ⟨r2, tl⟩⟩
  · simp [reconcile_step_bt6]
  · simp [reconcile_step_bt6]
  · rcases latest with _ | l
    · simp [reconcile_step_bt6]
    · simp only [reconcile_step_bt6]
      split
      · simp
      · simp [get_user_settings_bt6_eq_none]

/-- C6 counterexample: on an empty window `get_trend` answers the same
`"stable"` string as a genuinely flat window, not a distinct
`"undefined"` value. -/
theorem trend_short_window_is_stable :
    get_trend [] .buy = "stable" ∧ ("stable" : String) ≠ "undefined" := by
  constructor
  · rfl
  · simp

/-- C6 (amended): with fewer than two observations `calculate_speed`
(both the bt6 and the bot1 variant) returns `none`, while `get_trend`
returns `"stable"` — the same label as a flat window. -/
theorem short_window_speed_none_trend_stable (records : List MarketRec)
    (pt : PriceField) (h : records.length < 2) :
    calculate_speed records pt = none ∧
    calculate_speed_bot1 records pt = none ∧
    get_trend records pt = "stable" := by
  rcases records with _ | ⟨r1, _ | ⟨r2, tl⟩⟩
  · exact ⟨rfl, rfl, rfl⟩
  · exact ⟨rfl, rfl, rfl⟩
  · simp [List.length] at h
    omega

/-- Witness for `short_window_speed_none_trend_stable` at the empty list. -/
theorem short_window_speed_none_trend_stable_witness :
    calculate_speed [] .buy = none ∧
    calculate_speed_bot1 [] .buy = none ∧
    get_trend [] .buy = "stable" :=
  short_window_speed_none_trend_stable [] .buy (by simp)

/-- C7 counterexample: in bt6, a two-record window only three seconds
wide (0.05 minutes, below any positive resolution threshold) still
yields a numeric rate (−40 per minute), not `None`. -/
theorem speed_three_second_window_defined :
    calculate_speed recsThreeSec .buy = some (-40) ∧
    calculate_speed recsThreeSec .buy ≠ none := by
  have h : calculate_speed recsThreeSec .buy = some (-40) := by
    norm_num [calculate_speed, recsThreeSec, lastOf, MarketRec.price, roundQ4, roundHalfEven]
  rw [h]
  simp

/-- C7 (amended): with at least two observations, bt6's `calculate_speed`
returns `None` exactly on windows whose elapsed time is zero, while
bot1's `calculate_speed` implements the positive resolution threshold,
returning `None` whenever the window spans fewer than 6 seconds
(0.1 minutes). -/
theorem speed_resolution_thresholds (r1 r2 : MarketRec) (tl : List MarketRec)
    (pt : PriceField) :
    ((lastOf r2 tl).timestamp = r1.timestamp →
      calculate_speed (r1 :: r2 :: tl) pt = none) ∧
    ((lastOf r2 tl).timestamp - r1.timestamp < 6 →
      calculate_speed_bot1 (r1 :: r2 :: tl) pt = none) := by
  constructor
  · intro h0
    simp [calculate_speed, h0]
  · intro h1
    have h6 : ((lastOf r2 tl).timestamp - r1.timestamp) / 60 < 1/10 := by
      rw [div_lt_iff₀ (by norm_num : (0:ℚ) < 60)]
      linarith
    simp only [calculate_speed_bot1]
    rw [if_pos h6]

/-- Witness for `speed_resolution_thresholds`: bt6 on a zero-elapsed
window and bot1 on the three-second window both return `None`. -/
theorem speed_resolution_thresholds_witness :
    calculate_speed [⟨10, 9, 0, 0⟩, ⟨8, 7, 0, 0⟩] .buy = none ∧
    calculate_speed_bot1 [⟨10, 9, 0, 0⟩, ⟨8, 7, 0, 3⟩] .buy = none :=
  ⟨(speed_resolution_thresholds ⟨10, 9, 0, 0⟩ ⟨8, 7, 0, 0⟩ [] .buy).1
      (by norm_num [lastOf]),
   (speed_resolution_thresholds ⟨10, 9, 0, 0⟩ ⟨8, 7, 0, 3⟩ [] .buy).2
      (by norm_num [lastOf])⟩

/-- C3 (code slip): over the window (t=0, buy 10.0), (t=10 min, buy 8.0)
the buy speed is −0.2 per minute and the trend is `"down"`, but in bt6
as written a Falling alert at target 7.0 is never created: the handler
crashes at the settings lookup before `insert_alert`, so nothing is
persisted and no reply is sent (first conjunct).  Under the intended
db-backed settings semantics the creation succeeds exactly as claimed:
eta = |7 − 8| / 0.2 = 5 minutes, `alert_time = now + 5 min`, status
`"active"` (last conjunct). -/
theorem scenario_a_falling_alert (now : ℚ) (fuel : ℕ) :
    process_target_price_bt6 fuel 1 "wood" .down 7 recsA now = .crashed ∧
    calculate_speed recsA .buy = some (-1/5) ∧
    get_trend recsA .buy = "down" ∧
    process_target_price defaultSettings 1 "wood" .down 7 recsA now =
      .created
        { user_id := 1, resource := "wood", target_price := 7,
          direction := .down, speed := -1/5, current_price := 8,
          alert_time := now + 300, created_at := now,
          status := "active", last_checked := now } := by
  refine ⟨?_, ?_, ?_, ?_⟩
  · exact process_target_price_bt6_crashes fuel 1 "wood" .down 7
      ⟨10, 9, 0, 0⟩ ⟨8, 7, 0, 600⟩ [] now (-1/5) (by norm_num)
      (by norm_num [calculate_speed, lastOf, MarketRec.price, roundQ4, roundHalfEven])
  · norm_num [calculate_speed, recsA, lastOf, MarketRec.price, roundQ4, roundHalfEven]
  · norm_num [get_trend, recsA, lastOf, MarketRec.price]
  · norm_num [process_target_price, calculate_speed, recsA, lastOf, MarketRec.price,
      roundQ4, roundHalfEven, defaultSettings, get_user_bonus, Alert.mk.injEq,
      abs_of_nonpos, abs_of_nonneg]
    rfl

/-- Witness for `scenario_a_falling_alert` at `now = 1000`, fuel 5. -/
theorem scenario_a_falling_alert_witness :
    process_target_price_bt6 5 1 "wood" .down 7 recsA 1000 = .crashed ∧
    calculate_speed recsA .buy = some (-1/5) ∧
    get_trend recsA .buy = "down" ∧
    process_target_price defaultSettings 1 "wood" .down 7 recsA 1000 =
      .created
        { user_id := 1, resource := "wood", target_price := 7,
          direction := .down, speed := -1/5, current_price := 8,
          alert_time := 1000 + 300, created_at := 1000,
          status := "active", last_checked := 1000 } :=
  scenario_a_falling_alert 1000 5

/-- C2 (code slip): whenever a request passes the earlier gates
(positive target, at least 2 observations, defined rate, target strictly
on the correct side of the adjusted current price), bt6 as written
crashes at the settings lookup before the adverse-rate gate, so the
requester is never told the alert will not be set and nothing is
inserted (first conjunct).  Under the intended db-backed settings
semantics, such a request whose signed adjusted rate does not support
the direction (rate ≥ 0 for Falling, rate ≤ 0 for Rising) is answered
`adverseRate` — not `directionPriceMismatch` — and no row is inserted,
as only the `created` outcome inserts (second conjunct). -/
theorem adverse_rate_rejection
    (st : Settings) (uid : ℤ) (res : String) (dir : Direction)
    (target : ℚ) (r1 r2 : MarketRec) (tl : List MarketRec) (now : ℚ) (s : ℚ)
    (hpos : 0 < target)
    (hs : calculate_speed (r1 :: r2 :: tl) .buy = some s)
    (hdpm_down : dir = .down → target < (lastOf r2 tl).buy / (1 + get_user_bonus st))
    (hdpm_up : dir = .up → (lastOf r2 tl).buy / (1 + get_user_bonus st) < target)
    (hadv : (dir = .down ∧ 0 ≤ s / (1 + get_user_bonus st)) ∨
            (dir = .up ∧ s / (1 + get_user_bonus st) ≤ 0)) :
    (∀ fuel : ℕ,
      process_target_price_bt6 fuel uid res dir target (r1 :: r2 :: tl) now =
        .crashed) ∧
    process_target_price st uid res dir target (r1 :: r2 :: tl) now =
      .adverseRate := by
  constructor
  · intro fuel
    exact process_target_price_bt6_crashes fuel uid res dir target r1 r2 tl now s
      hpos hs
  · cases dir with
    | down =>
      have hd := hdpm_down rfl
      rcases hadv with ⟨-, ha⟩ | ⟨hud, -⟩
      · simp only [process_target_price, hs]
        rw [if_neg (not_le.2 hpos)]
        split_ifs <;> simp_all <;> linarith
      · exact absurd hud (by decide)
    | up =>
      have hu := hdpm_up rfl
      rcases hadv with ⟨hdu, -⟩ | ⟨-, ha⟩
      · exact absurd hdu (by decide)
      · simp only [process_target_price, hs]
        rw [if_neg (not_le.2 hpos)]
        split_ifs <;> simp_all <;> linarith

/-- Witness for `adverse_rate_rejection` — Scenario B: on the window
(t=0, buy 10.0), (t=10 min, buy 8.0), a Rising alert with target 12.0
for a zero-bonus user makes bt6 as written crash, while the intended
semantics rejects with AdverseRate (the speed −0.2 is adverse), not with
DirectionPriceMismatch. -/
theorem adverse_rate_rejection_witness :
    process_target_price_bt6 5 1 "wood" .up 12 recsA 1000 = .crashed ∧
    process_target_price defaultSettings 1 "wood" .up 12 recsA 1000 =
      .adverseRate := by
  have h := adverse_rate_rejection defaultSettings 1 "wood" .up 12
    ⟨10, 9, 0, 0⟩ ⟨8, 7, 0, 600⟩ [] 1000 (-1/5)
    (by norm_num)
    (by norm_num [calculate_speed, lastOf, MarketRec.price, roundQ4, roundHalfEven])
    (by intro h; exact absurd h (by decide))
    (by intro h; norm_num [lastOf, defaultSettings, get_user_bonus])
    (Or.inr ⟨rfl, by norm_num [defaultSettings, get_user_bonus]⟩)
  exact ⟨h.1 5, h.2⟩

/-- Helper: any alert row that `process_target_price` inserts carries a
speed whose sign matches its direction (the adverse-rate gate guards the
very value that is stored). -/
theorem process_created_speed_sign (st : Settings) (uid : ℤ) (res : String)
    (dir : Direction) (target : ℚ) (records : List MarketRec) (now : ℚ) (a : Alert)
    (h : process_target_price st uid res dir target records now = .created a) :
    (a.direction = .down → a.speed < 0) ∧ (a.direction = .up → 0 < a.speed) := by
  unfold process_target_price at h
  split at h
  next => exact CreateOutcome.noConfusion h
  next =>
    split at h
    next => exact CreateOutcome.noConfusion h
    next => exact CreateOutcome.noConfusion h
    next r1 r2 tl =>
      split at h
      next => exact CreateOutcome.noConfusion h
      next s hs =>
        simp only [] at h
        split at h
        next => exact CreateOutcome.noConfusion h
        next hdpm =>
          split at h
          next => exact CreateOutcome.noConfusion h
          next hadv =>
            injection h with h
            subst h
            constructor
            · intro hdir
              have hdir' : dir = .down := hdir
              subst hdir'
              by_contra hle
              exact hadv (Or.inl ⟨rfl, not_lt.1 hle⟩)
            · intro hdir
              have hdir' : dir = .up := hdir
              subst hdir'
              by_contra hle
              exact hadv (Or.inr ⟨rfl, not_lt.1 hle⟩)

/-- Helper: whenever the reconcile body reaches `update_alert`, the
rescheduled speed's sign matches the alert's direction (the permissive
adverse-rate skip guards the stored value). -/
theorem reconcile_rescheduled_speed_sign (st : Settings) (a : Alert)
    (records : List MarketRec) (latest : Option MarketRec) (now : ℚ)
    (t sp p : ℚ) (b : Bool)
    (h : reconcile_step st a records latest now = .rescheduled t sp p b) :
    (a.direction = .down → sp < 0) ∧ (a.direction = .up → 0 < sp) := by
  unfold reconcile_step at h
  split at h
  next => exact ReconcileOutcome.noConfusion h
  next => exact ReconcileOutcome.noConfusion h
  next r1 r2 tl =>
    split at h
    next => exact ReconcileOutcome.noConfusion h
    next l =>
      split at h
      next => exact ReconcileOutcome.noConfusion h
      next =>
        split at h
        next => exact ReconcileOutcome.noConfusion h
        next s hs =>
          simp only [] at h
          split at h
          next => exact ReconcileOutcome.noConfusion h
          next htrend =>
            split at h
            next => exact ReconcileOutcome.noConfusion h
            next hattain =>
              split at h
              next => exact ReconcileOutcome.noConfusion h
              next hadv =>
                injection h with h1 h2 h3 h4
                subst h2
                constructor
                · intro hdir
                  by_contra hle
                  exact hadv (Or.inl ⟨hdir, not_lt.1 hle⟩)
                · intro hdir
                  by_contra hle
                  exact hadv (Or.inr ⟨hdir, not_lt.1 hle⟩)

/-- C1 (code slip): in bt6 as written both persistence sites are dead
code — the handler and the sweep body always crash inside the shadowed
settings lookup before `insert_alert` / `update_alert`, so no alert row
is ever created and no reschedule is ever written (first two conjuncts:
no run of either body produces those writes), and the claimed invariant
holds only vacuously.  Under the intended db-backed settings semantics
both sites gate on the sign of the very value they store, so every
created alert and every reschedule carries a speed signed consistently
with the direction — negative for Falling (`down`), positive for Rising
(`up`) (last two conjuncts). -/
theorem alert_speed_sign_invariant
    (st₁ st₂ : Settings) (uid : ℤ) (res : String) (dir : Direction)
    (target : ℚ) (records₁ : List MarketRec) (now₁ : ℚ) (a : Alert)
    (a₂ : Alert) (records₂ : List MarketRec) (latest : Option MarketRec)
    (now₂ t sp p : ℚ) (b : Bool)
    (hcreate : process_target_price st₁ uid res dir target records₁ now₁ = .created a)
    (hresched : reconcile_step st₂ a₂ records₂ latest now₂ = .rescheduled t sp p b) :
    (∀ fuel : ℕ, ∀ x : Alert,
      process_target_price_bt6 fuel uid res dir target records₁ now₁ ≠
        .ok (.created x)) ∧
    (∀ fuel : ℕ, ∀ t2 sp2 p2 : ℚ, ∀ b2 : Bool,
      reconcile_step_bt6 fuel a₂ records₂ latest now₂ ≠
        .ok (.rescheduled t2 sp2 p2 b2)) ∧
    ((a.direction = .down → a.speed < 0) ∧ (a.direction = .up → 0 < a.speed)) ∧
    ((a₂.direction = .down → sp < 0) ∧ (a₂.direction = .up → 0 < sp)) :=
  ⟨fun fuel x =>
      process_target_price_bt6_no_insert fuel uid res dir target records₁ now₁ x,
   fun fuel t2 sp2 p2 b2 =>
      reconcile_step_bt6_no_update fuel a₂ records₂ latest now₂ t2 sp2 p2 b2,
   process_created_speed_sign st₁ uid res dir target records₁ now₁ a hcreate,
   reconcile_rescheduled_speed_sign st₂ a₂ records₂ latest now₂ t sp p b hresched⟩

/-- Witness for `alert_speed_sign_invariant`: Scenario A's created alert
and a concrete reschedule under the intended semantics, both with a
strictly negative falling speed, while the bt6 bodies as written never
produce either write. -/
theorem alert_speed_sign_invariant_witness :
    process_target_price_bt6 5 1 "wood" .down 7 recsA 1000 ≠
      .ok (.created alertScenA) ∧
    reconcile_step_bt6 5 alertResched recsResched (some ⟨8, 7, 0, 700⟩) 1000 ≠
      .ok (.rescheduled 1600 (-1/5) 8 true) ∧
    ((alertScenA.direction = .down → alertScenA.speed < 0) ∧
     (alertScenA.direction = .up → 0 < alertScenA.speed)) ∧
    ((alertResched.direction = .down → (-1/5 : ℚ) < 0) ∧
     (alertResched.direction = .up → (0:ℚ) < -1/5)) := by
  have h := alert_speed_sign_invariant defaultSettings defaultSettings 1 "wood" .down 7
    recsA 1000 alertScenA alertResched recsResched (some ⟨8, 7, 0, 700⟩) 1000
    1600 (-1/5) 8 true
    (by
      norm_num [process_target_price, calculate_speed, recsA, lastOf,
        MarketRec.price, roundQ4, roundHalfEven, defaultSettings,
        get_user_bonus, Alert.mk.injEq, abs_of_nonpos, abs_of_nonneg,
        alertScenA]
      rfl)
    (by
      norm_num [reconcile_step, calculate_speed, get_trend, alertResched,
        recsResched, lastOf, MarketRec.price, roundQ4, roundHalfEven,
        defaultSettings, get_user_bonus, abs_of_nonpos, abs_of_nonneg]
      rfl)
  exact ⟨h.1 5 alertScenA, h.2.1 5 1600 (-1/5) 8 true, h.2.2.1, h.2.2.2⟩

/-- C9: if the latest stored observation for an alert's resource is not
strictly newer than the alert's `created_at`, the reconcile body leaves
the alert completely unchanged — no transition, no reschedule, no
notification — whatever the window, the price, or the trend. -/
theorem stale_latest_reconcile_frame (st : Settings) (a : Alert)
    (records : List MarketRec) (l : MarketRec) (now : ℚ)
    (h : l.timestamp ≤ a.created_at) :
    reconcile_step st a records (some l) now = .skip ∧
    reconcile_notifies (reconcile_step st a records (some l) now) = false ∧
    (∀ recordsOf latestOf, latestOf a.resource = some l →
      sweep_one st recordsOf latestOf now a = a) := by
  have hskip : ∀ recs : List MarketRec,
      reconcile_step st a recs (some l) now = .skip := by
    intro recs
    rcases recs with _ | ⟨r1, _ | ⟨r2, tl⟩⟩
    · rfl
    · rfl
    · simp only [reconcile_step]
      rw [if_pos h]
  refine ⟨hskip records, by rw [hskip records]; rfl, ?_⟩
  intro recordsOf latestOf hl
  unfold sweep_one
  rw [hl, hskip (recordsOf a.resource)]
  split
  · rfl
  · rfl

/-- Witness for `stale_latest_reconcile_frame` at a state where the
target is attained and the trend contradicts the direction. -/
theorem stale_latest_reconcile_frame_witness :
    reconcile_step defaultSettings alertStale recsStale (some ⟨13/2, 6, 0, 900⟩) 1500 = .skip ∧
    get_trend recsStale .buy = "up" ∧
    (⟨13/2, 6, 0, 900⟩ : MarketRec).buy / (1 + get_user_bonus defaultSettings) ≤
      alertStale.target_price ∧
    sweep_one defaultSettings (fun _ => recsStale) (fun _ => some ⟨13/2, 6, 0, 900⟩)
      1500 alertStale = alertStale := by
  have h := stale_latest_reconcile_frame defaultSettings alertStale recsStale
    ⟨13/2, 6, 0, 900⟩ 1500 (by norm_num [alertStale])
  refine ⟨h.1, ?_, ?_, h.2.2 _ _ rfl⟩
  · norm_num [get_trend, recsStale, lastOf, MarketRec.price]
  · norm_num [alertStale, defaultSettings, get_user_bonus]

/-- C4 (code slip): for an Active alert whose guards pass (two-row
window, latest row newer than `created_at`), the bt6 sweep body as
written crashes at the settings lookup before the trend and attainment
tests, so the claimed Completed transition and target-reached
notification never occur (first conjunct).  Under the intended db-backed
settings semantics the pass does complete an alert whose latest
(bonus-adjusted) price attains the target, provided the window trend
does not contradict the direction and the window spans a nonzero elapsed
time (the recomputed rate being defined is still checked before
attainment); the Rising case is symmetric (second conjunct). -/
theorem reconcile_completes_on_attainment (st : Settings) (a : Alert)
    (r1 r2 : MarketRec) (tl : List MarketRec) (l : MarketRec) (now : ℚ)
    (hts : a.created_at < l.timestamp)
    (hspeed : calculate_speed (r1 :: r2 :: tl) .buy ≠ none)
    (htrend : ¬((a.direction = .down ∧ get_trend (r1 :: r2 :: tl) .buy = "up") ∨
                (a.direction = .up ∧ get_trend (r1 :: r2 :: tl) .buy = "down")))
    (hattain : (a.direction = .down ∧ l.buy / (1 + get_user_bonus st) ≤ a.target_price) ∨
               (a.direction = .up ∧ a.target_price ≤ l.buy / (1 + get_user_bonus st))) :
    (∀ fuel : ℕ,
      reconcile_step_bt6 fuel a (r1 :: r2 :: tl) (some l) now = .crashed) ∧
    reconcile_step st a (r1 :: r2 :: tl) (some l) now = .completed := by
  refine ⟨fun fuel => reconcile_step_bt6_crashes fuel a r1 r2 tl l now hts, ?_⟩
  obtain ⟨s, hs⟩ : ∃ s, calculate_speed (r1 :: r2 :: tl) .buy = some s := by
    rcases hx : calculate_speed (r1 :: r2 :: tl) .buy with _ | s
    · exact absurd hx hspeed
    · exact ⟨s, rfl⟩
  simp only [reconcile_step, hs]
  rw [if_neg (not_le.2 hts), if_neg htrend, if_pos hattain]

/-- Witness for `reconcile_completes_on_attainment` — Scenario C: a fresh
observation at buy 6.5 ≤ target 7.0 crashes the bt6 sweep, while the
intended semantics completes the alert before the timer fires. -/
theorem reconcile_completes_on_attainment_witness :
    reconcile_step_bt6 5 alertScenC recsScenC (some ⟨13/2, 6, 0, 660⟩) 700 =
      .crashed ∧
    reconcile_step defaultSettings alertScenC recsScenC (some ⟨13/2, 6, 0, 660⟩) 700 =
      .completed := by
  have h := reconcile_completes_on_attainment defaultSettings alertScenC
    ⟨36/5, 6, 0, 60⟩ ⟨13/2, 6, 0, 660⟩ [] ⟨13/2, 6, 0, 660⟩ 700
    (by norm_num [alertScenC])
    (by
      rw [show calculate_speed [⟨36/5, 6, 0, 60⟩, ⟨13/2, 6, 0, 660⟩] .buy =
          some (-7/100) from by
        norm_num [calculate_speed, lastOf, MarketRec.price, roundQ4, roundHalfEven]]
      simp)
    (by
      norm_num [get_trend, lastOf, MarketRec.price, alertScenC]
      exact ⟨by simp, by simp⟩)
    (Or.inl ⟨rfl, by norm_num [alertScenC, defaultSettings, get_user_bonus]⟩)
  exact ⟨h.1 5, h.2⟩

/-- C5: an alert whose status is not `'active'` is untouchable: the timer
path returns on wake with no message and no status write, the sweep body
leaves the row unchanged, and the periodic sweeps only ever iterate rows
of `get_active_alerts` (all of status `'active'`) — so a terminal status
is never changed and a notification is never double-fired. -/
theorem terminal_alerts_are_noops (st : Settings) (a : Alert) (tp : ℚ)
    (latest : Option MarketRec) (recordsOf : String → List MarketRec)
    (latestOf : String → Option MarketRec) (now : ℚ) (db : List Alert)
    (h : a.status ≠ "active") :
    schedule_alert st (some a) tp latest = .noop ∧
    fire_notifies (schedule_alert st (some a) tp latest) = false ∧
    fire_status (schedule_alert st (some a) tp latest) = none ∧
    sweep_one st recordsOf latestOf now a = a ∧
    (∀ b ∈ get_active_alerts db, b.status = "active") ∧
    (∀ i : ℕ, db[i]? = some a →
      (update_dynamic_timers_once st recordsOf latestOf now db)[i]? = some a) := by
  have h1 : schedule_alert st (some a) tp latest = .noop := by
    simp only [schedule_alert]
    rw [if_pos h]
  have h4 : sweep_one st recordsOf latestOf now a = a := by
    unfold sweep_one
    rw [if_neg h]
  refine ⟨h1, by rw [h1]; rfl, by rw [h1]; rfl, h4, ?_, ?_⟩
  · intro b hb
    unfold get_active_alerts at hb
    rw [List.mem_filter] at hb
    exact eq_of_beq hb.2
  · intro i hi
    unfold update_dynamic_timers_once
    rw [List.getElem?_map, hi, Option.map_some', h4]

/-- Witness for `terminal_alerts_are_noops` on a completed alert. -/
theorem terminal_alerts_are_noops_witness :
    schedule_alert defaultSettings (some alertDone) 7 none = .noop ∧
    sweep_one defaultSettings (fun _ => []) (fun _ => none) 0 alertDone = alertDone :=
  ⟨(terminal_alerts_are_noops defaultSettings alertDone 7 none (fun _ => [])
      (fun _ => none) 0 [] (by simp [alertDone])).1,
   (terminal_alerts_are_noops defaultSettings alertDone 7 none (fun _ => [])
      (fun _ => none) 0 [] (by simp [alertDone])).2.2.2.1⟩

/-- C8 counterexample: the cleanup sweep writes the status string
`'cleanup_expired'`, which differs from the `'expired'` status the timer
path writes — the claim's "terminal Expired status" is not what is
stored. -/
theorem cleanup_writes_cleanup_expired :
    (cleanup_expired_alerts [alertHourOld] 10000).map Alert.status = ["cleanup_expired"] ∧
    ("cleanup_expired" : String) ≠ "expired" ∧
    alertHourOld.status = "active" ∧ alertHourOld.alert_time < 10000 - 3600 := by
  refine ⟨?_, by simp, rfl, by norm_num [alertHourOld]⟩
  norm_num [cleanup_expired_alerts, alertHourOld]

/-- C8 (amended): one cleanup pass rewrites exactly the Active rows whose
`alert_time` is more than one hour before `now`, giving them the terminal
status `'cleanup_expired'` (not the timer path's `'expired'`); every
other row — non-Active or less than an hour past due — is untouched. -/
theorem cleanup_marks_hour_old_active (db : List Alert) (now : ℚ) (i : ℕ)
    (a : Alert) (h : db[i]? = some a) :
    ((a.status = "active" ∧ a.alert_time < now - 3600) →
      (cleanup_expired_alerts db now)[i]? =
        some { a with status := "cleanup_expired" } ∧
      ("cleanup_expired" : String) ≠ "active") ∧
    (¬(a.status = "active" ∧ a.alert_time < now - 3600) →
      (cleanup_expired_alerts db now)[i]? = some a) := by
  constructor
  · intro hc
    refine ⟨?_, by simp⟩
    unfold cleanup_expired_alerts
    rw [List.getElem?_map, h, Option.map_some']
    rw [if_pos hc]
  · intro hc
    unfold cleanup_expired_alerts
    rw [List.getElem?_map, h, Option.map_some']
    rw [if_neg hc]

/-- Witness for `cleanup_marks_hour_old_active` on a one-row table. -/
theorem cleanup_marks_hour_old_active_witness :
    (cleanup_expired_alerts [alertHourOld] 10000)[0]? =
      some { alertHourOld with status := "cleanup_expired" } ∧
    ("cleanup_expired" : String) ≠ "active" :=
  (cleanup_marks_hour_old_active [alertHourOld] 10000 0 alertHourOld rfl).1
    (by norm_num [alertHourOld])

/-- C10: the settings written through the bot's flow bound the trade
level by 0..10, so the intended bonus (the `db.get_user_settings` row
fed to `get_user_bonus`) lies in [0, 0.22] and the adjusted buy (sell)
price is at most (at least) the base price; but the shadowing wrapper
`bt6.get_user_settings` recurses forever and never returns a row, so in
bt6 `get_user_bonus` never actually produces this value. -/
theorem settings_bonus_bounds (fuel : ℕ) (uid : ℤ) (s : Settings)
    (lvl : ℤ) (buy sell : ℚ)
    (hflow : process_trade_level lvl = some s.trade_level)
    (hbuy : 0 ≤ buy) (hsell : 0 ≤ sell) :
    get_user_settings_bt6 fuel uid = none ∧
    0 ≤ get_user_bonus s ∧ get_user_bonus s ≤ 11/50 ∧
    (adjust_prices_for_user s buy sell).1 ≤ buy ∧
    sell ≤ (adjust_prices_for_user s buy sell).2 := by
  have hwrap : ∀ n : ℕ, get_user_settings_bt6 n uid = none := by
    intro n
    induction n with
    | zero => rfl
    | succ k ih => simpa [get_user_settings_bt6] using ih
  have hlvl : 0 ≤ s.trade_level ∧ s.trade_level ≤ 10 := by
    unfold process_trade_level at hflow
    split at hflow
    · exact Option.noConfusion hflow
    · rename_i hcond
      push_neg at hcond
      injection hflow with hflow
      omega
  have hq0 : (0:ℚ) ≤ (s.trade_level : ℚ) := by exact_mod_cast hlvl.1
  have hq10 : (s.trade_level : ℚ) ≤ 10 := by exact_mod_cast hlvl.2
  have hb0 : 0 ≤ get_user_bonus s := by
    unfold get_user_bonus
    cases s.has_anchor <;> simp <;> linarith
  have hb1 : get_user_bonus s ≤ 11/50 := by
    unfold get_user_bonus
    cases s.has_anchor <;> simp <;> linarith
  refine ⟨hwrap fuel, hb0, hb1, ?_, ?_⟩
  · unfold adjust_prices_for_user
    exact div_le_self hbuy (by linarith)
  · unfold adjust_prices_for_user
    exact le_mul_of_one_le_right hsell (by linarith)

/-- Witness for `settings_bonus_bounds` at the maximal flow-written
settings (anchor, trade level 10). -/
theorem settings_bonus_bounds_witness :
    get_user_settings_bt6 5 1 = none ∧
    0 ≤ get_user_bonus ⟨true, 10, 30, true⟩ ∧
    get_user_bonus ⟨true, 10, 30, true⟩ ≤ 11/50 ∧
    (adjust_prices_for_user ⟨true, 10, 30, true⟩ 100 50).1 ≤ 100 ∧
    (50:ℚ) ≤ (adjust_prices_for_user ⟨true, 10, 30, true⟩ 100 50).2 :=
  settings_bonus_bounds 5 1 ⟨true, 10, 30, true⟩ 10 100 50
    (by norm_num [process_trade_level]) (by norm_num) (by norm_num)
